import Mathlib

/-!
Verification of the AccelScript front-end fragment (src/src/parser.hpp,
src/src/parser.cpp): the AST node model and the tree-transformation
(visitor) layer that maps concrete-syntax-tree productions to typed,
position-annotated AST nodes.

The external parsing engine (lexer, grammar, parse-tree construction) is out
of scope per the design: it is modelled here by the accessor interface the
visitor actually consumes in parser.cpp — per production node, the literal
text of its identifier / shader-stage / type-specifier children, the
optional parameter-list child, and the start/stop token byte offsets.
-/

namespace AccelScript

/-- A `parameter` production of the external concrete syntax tree, modelled
by the two accessors used in `ASTVisitor::visitShaderDeclaration`:
`param->Identifier()->getText()` and `param->typeSpecifier()->getText()`. -/
structure ParameterContext where
  identifier : String
  typeSpecifier : String
deriving Repr, DecidableEq

/-- A `structDeclaration` production, modelled by the accessors used in
`ASTVisitor::visitStructDeclaration`: `ctx->Identifier()->getText()`,
`ctx->getStart()->getStartIndex()`, `ctx->getStop()->getStopIndex()`.
The `block` field carries the declaration body's raw source text when the
declaration syntactically has a body; the visitor never reads it. -/
structure StructDeclarationContext where
  identifier : String
  block : Option String
  startIndex : Nat
  stopIndex : Nat
deriving Repr, DecidableEq

/-- A `shaderDeclaration` production, modelled by the accessors used in
`ASTVisitor::visitShaderDeclaration`: `ctx->shaderType()->getText()`,
`ctx->Identifier()->getText()`, `ctx->parameterList()` (null when no
parameter list is present), `ctx->typeSpecifier()` (null when the
declaration has no trailing return-type annotation; otherwise the
annotation's literal text), and the start/stop token byte offsets.
The `block` field carries the body's raw source text when present; the
visitor never reads it. -/
structure ShaderDeclarationContext where
  shaderType : String
  identifier : String
  parameterList : Option (List ParameterContext)
  typeSpecifier : Option String
  block : Option String
  startIndex : Nat
  stopIndex : Nat
deriving Repr, DecidableEq

/-- A top-level declaration production handed to the visitor. The `other`
variant is a production the visitor does not recognize (neither a struct
nor a shader declaration); it carries the production's textual kind. -/
inductive DeclarationContext where
  | structDecl : StructDeclarationContext → DeclarationContext
  | shaderDecl : ShaderDeclarationContext → DeclarationContext
  | other : String → DeclarationContext
deriving Repr, DecidableEq

/-- `ShaderDeclaration::Param` from parser.hpp: a `(name, type)` pair. -/
structure Param where
  name : String
  type : String
deriving Repr, DecidableEq

/-- `StructDeclaration` from parser.hpp, polymorphic in the body type so the
node type can tie the recursive knot. Fields: the inherited `Node` base
fields `type`, `start`, `end`; `name` models the nested `name.name` string;
`body` models the owned `std::unique_ptr<Node> body` (none = null). -/
structure StructDeclarationF (B : Type) where
  type : String
  start : Nat
  «end» : Nat
  name : String
  body : Option B
deriving Repr

/-- `ShaderDeclaration` from parser.hpp, polymorphic in the body type.
Fields: the inherited `Node` base fields `type`, `start`, `end`; `id` models
the nested `id.name` string; `params` the parameter vector; `returnType`
models the nested `returnType.name` string (a plain string that
default-constructs to the empty string); `body` the owned pointer. -/
structure ShaderDeclarationF (B : Type) where
  type : String
  start : Nat
  «end» : Nat
  id : String
  params : List Param
  returnType : String
  body : Option B
deriving Repr

/-- The polymorphic `Node` base of parser.hpp, as a closed sum over the two
concrete variants that exist in the source. -/
inductive Node where
  | structDecl : StructDeclarationF Node → Node
  | shaderDecl : ShaderDeclarationF Node → Node

/-- `StructDeclaration` from parser.hpp (body slot holds a `Node`). -/
abbrev StructDeclaration := StructDeclarationF Node

/-- `ShaderDeclaration` from parser.hpp (body slot holds a `Node`). -/
abbrev ShaderDeclaration := ShaderDeclarationF Node

/-- `dynamic_cast<StructDeclaration*>` on a `Node*` (as used in
src/test/parser_test.cpp): yields the payload when the node actually is a
`StructDeclaration`, and the null result otherwise. -/
def Node.asStructDeclaration : Node → Option StructDeclaration
  | .structDecl d => some d
  | _ => none

/-- `dynamic_cast<ShaderDeclaration*>` on a `Node*`: yields the payload when
the node actually is a `ShaderDeclaration`, and the null result otherwise. -/
def Node.asShaderDeclaration : Node → Option ShaderDeclaration
  | .shaderDecl d => some d
  | _ => none

/-- The inherited `Node::start` field of either variant. -/
def Node.start : Node → Nat
  | .structDecl d => d.start
  | .shaderDecl d => d.start

/-- The inherited `Node::end` field of either variant. -/
def Node.«end» : Node → Nat
  | .structDecl d => d.«end»
  | .shaderDecl d => d.«end»

/-- `ASTVisitor::visitStructDeclaration` (parser.cpp lines 7-14):
`type = "StructDeclaration"`, `name.name` from the identifier token's text,
`start`/`end` from the start/stop token byte indices. The default-initialized
`body` pointer is never assigned, so it stays null. -/
def visitStructDeclaration (ctx : StructDeclarationContext) : StructDeclaration :=
  { type := "StructDeclaration"
    name := ctx.identifier
    start := ctx.startIndex
    «end» := ctx.stopIndex
    body := none }

/-- `ASTVisitor::visitShaderDeclaration` (parser.cpp lines 16-39):
`type` is the shader-stage production's text concatenated with the literal
`"ShaderDeclaration"`; `id.name` from the identifier token; one `Param` per
parameter in declaration order when a parameter list is present (otherwise
the default-constructed empty vector); `returnType.name` assigned from the
type-specifier child when one exists (otherwise it stays the
default-constructed empty string); `start`/`end` from the token byte
indices; the `body` pointer is never assigned and stays null. -/
def visitShaderDeclaration (ctx : ShaderDeclarationContext) : ShaderDeclaration :=
  { type := ctx.shaderType ++ "ShaderDeclaration"
    id := ctx.identifier
    params :=
      match ctx.parameterList with
      | some ps => ps.map fun p => { name := p.identifier, type := p.typeSpecifier }
      | none => []
    returnType :=
      match ctx.typeSpecifier with
      | some t => t
      | none => ""
    start := ctx.startIndex
    «end» := ctx.stopIndex
    body := none }

/-- The visitor's dispatch on a declaration production. The two overridden
methods handle struct and shader declarations; any other production falls
through to the generated base visitor, whose default result is the null
pointer, modelled as `none`. -/
def visit : DeclarationContext → Option Node
  | .structDecl c => some (.structDecl (visitStructDeclaration c))
  | .shaderDecl c => some (.shaderDecl (visitShaderDeclaration c))
  | .other _ => none

/-- The tree-transformation step of `parse` (parser.cpp lines 42-51): the
external engine has already produced the tree; `parse` runs the visitor on
it and wraps the raw result in the owning pointer it returns. -/
def build (tree : DeclarationContext) : Option Node := visit tree

/-- A declaration production is well formed over a source buffer of length
`L` when its start token's byte index does not exceed its stop token's byte
index and both are valid offsets into the buffer (the external engine's
collaborator contract for any tree it hands to the builder). -/
def DeclarationContext.SpanWF (L : Nat) : DeclarationContext → Prop
  | .structDecl c => c.startIndex ≤ c.stopIndex ∧ c.stopIndex + 1 ≤ L
  | .shaderDecl c => c.startIndex ≤ c.stopIndex ∧ c.stopIndex + 1 ≤ L
  | .other _ => True

/-- C1 counterexample: the claim says a shader declaration with no trailing
return-type annotation yields an absent `returnType`, distinguishable from a
`returnType` holding the empty string. In the code `returnType.name` is a
plain string that stays default-constructed (empty) when the annotation is
missing, so the node built from a context with no type specifier is
identical to the node built from the same context whose type specifier is
the empty string: the two cases the claim requires to be distinguishable
produce equal values. -/
theorem c1_returnType_absent_counterexample :
    visitShaderDeclaration
      { shaderType := "compute", identifier := "main", parameterList := none,
        typeSpecifier := none, block := some "body", startIndex := 0, stopIndex := 14 } =
    visitShaderDeclaration
      { shaderType := "compute", identifier := "main", parameterList := none,
        typeSpecifier := some "", block := some "body", startIndex := 0, stopIndex := 14 } :=
  rfl

/-- C1 (amended): if the shader declaration includes a trailing return-type
annotation, the resulting node's `returnType` holds that annotation's
literal text; otherwise `returnType` holds the empty string (absence is not
representable: the field is a plain string). -/
theorem c1_returnType_amended (c : ShaderDeclarationContext) :
    (∀ t, c.typeSpecifier = some t → (visitShaderDeclaration c).returnType = t) ∧
    (c.typeSpecifier = none → (visitShaderDeclaration c).returnType = "") := by
  constructor
  · intro t h
    simp [visitShaderDeclaration, h]
  · intro h
    simp [visitShaderDeclaration, h]

/-- C1 witness: the amended theorem applied to a concrete shader context
carrying the return annotation `VertexOutput`. -/
theorem c1_returnType_amended_witness :
    (visitShaderDeclaration
      { shaderType := "vertex", identifier := "SimpleVertex", parameterList := none,
        typeSpecifier := some "VertexOutput", block := some "body",
        startIndex := 9, stopIndex := 60 }).returnType = "VertexOutput" :=
  (c1_returnType_amended
    { shaderType := "vertex", identifier := "SimpleVertex", parameterList := none,
      typeSpecifier := some "VertexOutput", block := some "body",
      startIndex := 9, stopIndex := 60 }).1 "VertexOutput" rfl

/-- C2 counterexample: the claim says an unrecognized top-level production
makes the builder fail with an `UnsupportedConstruct` condition carrying
that production's textual kind. No such error machinery exists in the
source: an unrecognized production falls through to the base visitor's
default and `parse` returns the null result. Two unrecognized productions
with different textual kinds produce the same result, `none`, so the result
is not a failure condition and carries no kind. -/
theorem c2_unsupportedConstruct_counterexample :
    build (.other "enumDeclaration") = none ∧
    build (.other "traitDeclaration") = none ∧
    build (.other "enumDeclaration") = build (.other "traitDeclaration") :=
  ⟨rfl, rfl, rfl⟩

/-- C2 (amended): for every input tree whose root production does not match
a known AST variant, the builder returns the null result: no partial or
best-effort AST node is returned, but no `UnsupportedConstruct` condition
is raised and the unrecognized production's textual kind is not carried in
the result. -/
theorem c2_unrecognized_returns_null (k : String) : build (.other k) = none :=
  rfl

/-- C3: the node built from a shader declaration has its kind discriminant
equal to the shader-stage production's literal source text (case preserved)
concatenated, with no separator, with the literal `"ShaderDeclaration"`. -/
theorem c3_shader_kind_discriminant (c : ShaderDeclarationContext) :
    (visitShaderDeclaration c).type = c.shaderType ++ "ShaderDeclaration" :=
  rfl

/-- C4: when a parameter list is present the built node's `params` holds one
`(name, type)` pair per parameter in left-to-right declaration order, the
name being the parameter identifier's literal text and the type the
verbatim literal text of its type annotation; when no parameter list is
present `params` is the empty sequence (the field is a sequence, never
absent or null). -/
theorem c4_params_extraction (c : ShaderDeclarationContext) :
    (∀ ps, c.parameterList = some ps →
      (visitShaderDeclaration c).params =
        ps.map fun p => { name := p.identifier, type := p.typeSpecifier }) ∧
    (c.parameterList = none → (visitShaderDeclaration c).params = []) := by
  constructor
  · intro ps h
    simp [visitShaderDeclaration, h]
  · intro h
    simp [visitShaderDeclaration, h]

/-- C4 witness: the theorem applied to a concrete shader context with three
parameters, including a generic `Buffer<f32>` type annotation captured
verbatim. -/
theorem c4_params_extraction_witness :
    (visitShaderDeclaration
      { shaderType := "compute", identifier := "Add",
        parameterList := some
          [ { identifier := "input1", typeSpecifier := "Buffer<f32>" },
            { identifier := "input2", typeSpecifier := "Buffer<f32>" },
            { identifier := "output", typeSpecifier := "Buffer<f32>" } ],
        typeSpecifier := none, block := some "body",
        startIndex := 9, stopIndex := 120 }).params =
      [ { name := "input1", type := "Buffer<f32>" },
        { name := "input2", type := "Buffer<f32>" },
        { name := "output", type := "Buffer<f32>" } ] :=
  (c4_params_extraction
    { shaderType := "compute", identifier := "Add",
      parameterList := some
        [ { identifier := "input1", typeSpecifier := "Buffer<f32>" },
          { identifier := "input2", typeSpecifier := "Buffer<f32>" },
          { identifier := "output", typeSpecifier := "Buffer<f32>" } ],
      typeSpecifier := none, block := some "body",
      startIndex := 9, stopIndex := 120 }).1
    [ { identifier := "input1", typeSpecifier := "Buffer<f32>" },
      { identifier := "input2", typeSpecifier := "Buffer<f32>" },
      { identifier := "output", typeSpecifier := "Buffer<f32>" } ] rfl

/-- C5: building the parse tree of a valid struct declaration whose declared
identifier's literal text is `N` (the external engine's contract: the
production's identifier token text is that identifier) yields a node whose
kind discriminant is `"StructDeclaration"` and whose name is `N`. -/
theorem c5_struct_declaration_build (c : StructDeclarationContext) (N : String)
    (h : c.identifier = N) :
    ∃ d, build (.structDecl c) = some (.structDecl d) ∧
      d.type = "StructDeclaration" ∧ d.name = N := by
  refine ⟨visitStructDeclaration c, rfl, rfl, ?_⟩
  simp [visitStructDeclaration, h]

/-- C5 witness: the theorem applied to the concrete struct declaration
`struct Vertex ...` from the test suite. -/
theorem c5_struct_declaration_build_witness :
    ∃ d, build (.structDecl
      { identifier := "Vertex", block := some "body",
        startIndex := 9, stopIndex := 88 }) = some (.structDecl d) ∧
      d.type = "StructDeclaration" ∧ d.name = "Vertex" :=
  c5_struct_declaration_build
    { identifier := "Vertex", block := some "body", startIndex := 9, stopIndex := 88 }
    "Vertex" rfl

/-- C6: every node the builder produces from a well-formed parse tree over a
source buffer of length `L` has a byte-offset span satisfying
`0 ≤ start ≤ end ≤ L - 1` (the builder copies the start/stop token byte
indices, which the external engine guarantees are valid offsets). -/
theorem c6_span_invariant (L : Nat) (t : DeclarationContext) (n : Node)
    (hwf : t.SpanWF L) (hb : build t = some n) :
    0 ≤ n.start ∧ n.start ≤ n.«end» ∧ n.«end» ≤ L - 1 := by
  cases t with
  | structDecl c =>
    obtain ⟨h₁, h₂⟩ := hwf
    cases hb
    refine ⟨Nat.zero_le _, ?_, ?_⟩ <;>
      simp [Node.start, Node.«end», visitStructDeclaration] <;> omega
  | shaderDecl c =>
    obtain ⟨h₁, h₂⟩ := hwf
    cases hb
    refine ⟨Nat.zero_le _, ?_, ?_⟩ <;>
      simp [Node.start, Node.«end», visitShaderDeclaration] <;> omega
  | other k =>
    cases hb

/-- C6 witness: the theorem applied to a concrete struct declaration
spanning bytes 9 through 88 of a 100-byte source buffer. -/
theorem c6_span_invariant_witness :
    0 ≤ (Node.structDecl (visitStructDeclaration
        { identifier := "Vertex", block := some "body",
          startIndex := 9, stopIndex := 88 })).start ∧
    (Node.structDecl (visitStructDeclaration
        { identifier := "Vertex", block := some "body",
          startIndex := 9, stopIndex := 88 })).start ≤
      (Node.structDecl (visitStructDeclaration
        { identifier := "Vertex", block := some "body",
          startIndex := 9, stopIndex := 88 })).«end» ∧
    (Node.structDecl (visitStructDeclaration
        { identifier := "Vertex", block := some "body",
          startIndex := 9, stopIndex := 88 })).«end» ≤ 100 - 1 :=
  c6_span_invariant 100
    (.structDecl { identifier := "Vertex", block := some "body",
                   startIndex := 9, stopIndex := 88 })
    (Node.structDecl (visitStructDeclaration
      { identifier := "Vertex", block := some "body",
        startIndex := 9, stopIndex := 88 }))
    ⟨by decide, by decide⟩ rfl

/-- C7: the builder is deterministic — on structurally identical input trees
two invocations yield AST values that compare equal field-for-field; the
output depends only on the input tree, with no hidden state (the builder is
a pure function of the tree in this embedding, which is faithful because
the source visitor reads only its argument tree and writes only the node it
allocates, with no globals and no unordered containers). -/
theorem c7_build_deterministic (t₁ t₂ : DeclarationContext) (h : t₁ = t₂) :
    build t₁ = build t₂ := by
  rw [h]

/-- C7 witness: the theorem applied to two structurally identical concrete
trees. -/
theorem c7_build_deterministic_witness :
    build (.structDecl
      { identifier := "Vertex", block := some "body",
        startIndex := 9, stopIndex := 88 }) =
    build (.structDecl
      { identifier := "Vertex", block := some "body",
        startIndex := 9, stopIndex := 88 }) :=
  c7_build_deterministic
    (.structDecl { identifier := "Vertex", block := some "body",
                   startIndex := 9, stopIndex := 88 })
    (.structDecl { identifier := "Vertex", block := some "body",
                   startIndex := 9, stopIndex := 88 })
    rfl

/-- C8: downcasting a `Node` handle to the wrong concrete variant fails
safely with the empty result (never undefined behavior — the downcast
functions are total), and a correct downcast to the node's actual variant
yields the node's payload. -/
theorem c8_downcast_safety (d : StructDeclaration) (s : ShaderDeclaration) :
    (Node.structDecl d).asStructDeclaration = some d ∧
    (Node.structDecl d).asShaderDeclaration = none ∧
    (Node.shaderDecl s).asShaderDeclaration = some s ∧
    (Node.shaderDecl s).asStructDeclaration = none :=
  ⟨rfl, rfl, rfl, rfl⟩

/-- C9: the builder leaves the `body` field of every struct and shader node
it produces absent (null) — the visitor never assigns the default-initialized
body pointer, even when the source declaration syntactically contains a body
(the contexts quantified over include those whose `block` is present) — while
the declaration node itself is still produced with its other fields
extracted. -/
theorem c9_body_always_absent (sc : StructDeclarationContext)
    (hc : ShaderDeclarationContext) :
    (visitStructDeclaration sc).body = none ∧
    (visitShaderDeclaration hc).body = none ∧
    (visitStructDeclaration sc).name = sc.identifier ∧
    (visitShaderDeclaration hc).id = hc.identifier :=
  ⟨rfl, rfl, rfl, rfl⟩

/-- C10: a shader declaration with no trailing return-type annotation yields
a node whose `returnType` name holds exactly the empty string, and the
representation cannot distinguish that node from the one built from the
same declaration with an empty-text annotation. -/
theorem c10_returnType_empty_string (c : ShaderDeclarationContext)
    (h : c.typeSpecifier = none) :
    (visitShaderDeclaration c).returnType = "" ∧
    visitShaderDeclaration c =
      visitShaderDeclaration { c with typeSpecifier := some "" } := by
  constructor
  · simp [visitShaderDeclaration, h]
  · simp [visitShaderDeclaration, h]

/-- C10 witness: the theorem applied to a concrete shader context with no
return-type annotation. -/
theorem c10_returnType_empty_string_witness :
    (visitShaderDeclaration
      { shaderType := "compute", identifier := "Add", parameterList := none,
        typeSpecifier := none, block := some "body",
        startIndex := 9, stopIndex := 40 }).returnType = "" :=
  (c10_returnType_empty_string
    { shaderType := "compute", identifier := "Add", parameterList := none,
      typeSpecifier := none, block := some "body",
      startIndex := 9, stopIndex := 40 } rfl).1

end AccelScript
